import Mathlib

/-!
Shallow embedding of `echidna/scripts/dump_spectra_root.py`.

The script delegates all real work to three external collaborator services
(`fill_spectrum`, `plot`, `store`).  Since the script never branches on any
value returned by those services, its behaviour is fully described by the
ordered sequence of service calls it makes; we embed each call as an `Event`
and each function of the script as the list of events it emits.  A `Spectrum`
is opaque to the script, so it is represented by the arguments of the fill
call that constructed it.  Service failures are modelled by an oracle
`svc : Event → Option String` (`none` = the call succeeds, `some e` = the
call raises error `e`); since the script contains no try/except, execution
is the longest prefix of the call list up to and including the first failing
call.

Two functions of the script read Python *global* variables that are never
defined at module scope (`path_to_file` in `read_tab_delim_file`, `path` in
the batch loop of `__main__`); those lookups are embedded explicitly through
a `globals` association list, and a failed lookup produces the corresponding
`NameError`, exactly as CPython would raise it.

Python `float` half-life values are never computed with by the script, only
passed through to the services, so half-lives are carried as opaque strings.
-/

namespace Echidna

/-- Which of the two fill-service variants constructed a spectrum:
`fill_spectrum.fill_mc_spectrum` or `fill_spectrum.fill_reco_spectrum`. -/
inductive FillKind where
  | mc
  | reco
  deriving DecidableEq

/-- A spectrum object is opaque to the script; it is determined by the fill
call that created it: the variant, the input ROOT file, the half-life and
the `spectrumname` keyword argument. -/
structure Spectrum where
  kind : FillKind
  source : String
  half_life : String
  name : String
  deriving DecidableEq

/-- One call to an external collaborator service. -/
inductive Event where
  /-- a call to `fill_spectrum.fill_mc_spectrum` / `fill_reco_spectrum`,
  recorded together with the spectrum it returns -/
  | fill (spec : Spectrum)
  /-- a call to `plot.plot_projection(spec, dim)` -/
  | plot_projection (spec : Spectrum) (dim : Nat)
  /-- a call to `store.dump(path, spec)` -/
  | dump (path : String) (spec : Spectrum)
  deriving DecidableEq

/-- Python `fill_spectrum.fill_mc_spectrum(fname, half_life, spectrumname=...)`. -/
def fill_mc_spectrum (fname half_life spectrumname : String) : Spectrum :=
  ⟨FillKind.mc, fname, half_life, spectrumname⟩

/-- Python `fill_spectrum.fill_reco_spectrum(fname, half_life, spectrumname=...)`. -/
def fill_reco_spectrum (fname half_life spectrumname : String) : Spectrum :=
  ⟨FillKind.reco, fname, half_life, spectrumname⟩

/-- Function `plot_spectrum(spec)` (lines 50-61): plots projections of the three
dimensions 0, 1, 2 of the spectrum. -/
def plot_spectrum (spec : Spectrum) : List Event :=
  [Event.plot_projection spec 0,
   Event.plot_projection spec 1,
   Event.plot_projection spec 2]

/-- Function `read_and_dump_root(fname, half_life, spectrum_name, save_path)`
(lines 26-48): fill an mc and a reco spectrum, plot both, and dump both to
`<save_path>/<spectrum_name>_mc.hdf5` and `..._reco.hdf5`.  The value is the
ordered list of service calls the Python function makes. -/
def read_and_dump_root (fname half_life spectrum_name save_path : String) :
    List Event :=
  let mc_spec := fill_mc_spectrum fname half_life (spectrum_name ++ "_mc")
  let reco_spec := fill_reco_spectrum fname half_life (spectrum_name ++ "_reco")
  [Event.fill mc_spec, Event.fill reco_spec]
    ++ plot_spectrum mc_spec
    ++ plot_spectrum reco_spec
    ++ [Event.dump (save_path ++ "/" ++ spectrum_name ++ "_mc.hdf5") mc_spec,
        Event.dump (save_path ++ "/" ++ spectrum_name ++ "_reco.hdf5") reco_spec]

/-- Execute a straight-line sequence of service calls against the failure
oracle `svc`: calls run in order, and the first failing call aborts the run,
its error propagating unhandled (the script has no try/except).  Returns the
calls actually attempted and the propagated error, if any. -/
def run_calls (svc : Event → Option String) : List Event → List Event × Option String
  | [] => ([], none)
  | e :: es =>
    match svc e with
    | some err => ([e], some err)
    | none =>
      let r := run_calls svc es
      (e :: r.1, r.2)

/-- One invocation of `read_and_dump_root` under the failure oracle `svc`. -/
def run_read_and_dump_root (svc : Event → Option String)
    (fname half_life spectrum_name save_path : String) :
    List Event × Option String :=
  run_calls svc (read_and_dump_root fname half_life spectrum_name save_path)

/-- Is the event a fill-service call? -/
def isFill : Event → Bool
  | Event.fill _ => true
  | _ => false

/-- Is the event a plotting-service call? -/
def isPlot : Event → Bool
  | Event.plot_projection _ _ => true
  | _ => false

/-- Is the event a storage-service write? -/
def isDump : Event → Bool
  | Event.dump _ _ => true
  | _ => false

/-- Is the event a storage write of a spectrum built by the given fill
variant? -/
def isDumpOf (k : FillKind) : Event → Bool
  | Event.dump _ s => decide (s.kind = k)
  | _ => false

/-- Index of the last occurrence of `c` in `l`, if any (Python
`str.rfind` restricted to an exact character, returning `none` for `-1`). -/
def rfindIdx : List Char → Char → Option Nat
  | [], _ => none
  | x :: xs, c =>
    match rfindIdx xs c with
    | some i => some (i + 1)
    | none => if x = c then some 0 else none

/-- The slice start index of the name-derivation expression
`fname.rfind('/', 0, -1)+1`: Python searches for the last `/` in
`fname[0:len(fname)-1]` (the `-1` end bound excludes the final character);
`rfind` returning `-1` makes the start index 0. -/
def spectrum_name_start (cs : List Char) : Nat :=
  match rfindIdx (cs.take (cs.length - 1)) '/' with
  | some i => i + 1
  | none => 0

/-- The name-derivation expression of `__main__` (lines 101 and 108):
`fname[fname.rfind('/', 0, -1)+1:]`. -/
def spectrum_name_of (fname : String) : String :=
  String.mk (fname.toList.drop (spectrum_name_start fname.toList))

/-- The `NameError` CPython raises at line 74, where `read_tab_delim_file`
evaluates the global name `path_to_file`, which is defined nowhere in the
module. -/
def nameErrorPathToFile : String := "NameError: name path_to_file is not defined"

/-- The `NameError` CPython raises at line 109, where the batch loop
evaluates the global name `path`, which is defined nowhere in the module. -/
def nameErrorPath : String := "NameError: name path is not defined"

/-- Split a character list at every occurrence of the separator `c`
(Python `str.split(sep)` with a one-character separator: `n` separators
yield `n + 1` pieces, so the empty input yields one empty piece). -/
def splitChar : List Char → Char → List (List Char)
  | [], _ => [[]]
  | x :: xs, c =>
    match splitChar xs c with
    | [] => if x = c then [[], []] else [[x]]
    | y :: ys => if x = c then [] :: y :: ys else (x :: y) :: ys

/-- The lines of a text file as Python iterates them (splitting on newline;
a trailing newline does not produce an extra empty line). -/
def file_lines (content : String) : List String :=
  let parts := (splitChar content.toList '\n').map String.mk
  if parts.getLast? = some "" then parts.dropLast else parts

/-- The loop body of `read_tab_delim_file` (lines 76-79): each line is split
on the tab delimiter and unpacked as `path, half`; a line that does not have
exactly two fields raises `ValueError`.  On success the two per-column lists
are returned in line order. -/
def parse_tab_delim_lines : List String → Except String (List String × List String)
  | [] => Except.ok ([], [])
  | line :: rest =>
    match (splitChar line.toList '\t').map String.mk with
    | [path, half] =>
      match parse_tab_delim_lines rest with
      | Except.ok (ps, hs) => Except.ok (path :: ps, half :: hs)
      | Except.error e => Except.error e
    | _ => Except.error "ValueError: not enough values to unpack"

/-- Function `read_tab_delim_file(fname)` (lines 63-80).  The Python body ignores its
`fname` parameter: it opens the file named by the global `path_to_file`
(line 74), a lookup of the
global name `path_to_file` (modelled by the `globals` association list of the
string-valued module globals).  `fs` models the file system
(`fs p = some content` when a file named `p` exists with that content). -/
def read_tab_delim_file (fname : String) (globals : List (String × String))
    (fs : String → Option String) : Except String (List String × List String) :=
  match globals.lookup "path_to_file" with
  | none => Except.error nameErrorPathToFile
  | some path_to_file =>
    match fs path_to_file with
    | none => Except.error "IOError"
    | some content => parse_tab_delim_lines (file_lines content)

/-- The batch loop of `__main__` (lines 107-109), iterating with `enumerate`:
for each `fname` in `path_list`, derive `spectrum_name` from `fname`, then
call `read_and_dump_root(path, half_life_list[idx], spectrum_name,
save_path)`.  Note the first argument is the global name `path`, not the
loop variable `fname`; evaluating it is a global lookup.  Returns the
service calls made and the first propagated error, if any. -/
def batch_loop_go (half_life_list : List String)
    (globals : List (String × String)) (save_path : String) :
    Nat → List String → List Event × Option String
  | _, [] => ([], none)
  | idx, fname :: rest =>
    let spectrum_name := spectrum_name_of fname
    match globals.lookup "path" with
    | none => ([], some nameErrorPath)
    | some path =>
      match half_life_list.get? idx with
      | none => ([], some "IndexError: list index out of range")
      | some half_life =>
        let t := read_and_dump_root path half_life spectrum_name save_path
        let r := batch_loop_go half_life_list globals save_path (idx + 1) rest
        (t ++ r.1, r.2)

/-- The batch loop of `__main__`, started at index 0. -/
def batch_loop (path_list half_life_list : List String)
    (globals : List (String × String)) (save_path : String) :
    List Event × Option String :=
  batch_loop_go half_life_list globals save_path 0 path_list

/-- The parsed command-line arguments (lines 83-97): the optional manifest
path `-r` (`--read_text_file`), the optional save directory `-s`
(`--save_path`, argparse applies the default `"./"` when absent), and the
positional `fname` and `half_life`. -/
structure Args where
  read_text_file : Option String
  save_path : String
  fname : String
  half_life : String

/-- The string-valued module globals defined by the time line 105 runs:
`fname` (line 100) and `spectrum_name` (line 101).  Neither `path_to_file`
nor `path` is ever among the module globals. -/
def main_globals (args : Args) : List (String × String) :=
  [("fname", args.fname), ("spectrum_name", spectrum_name_of args.fname)]

/-- The service calls of the unconditional single-pair processing of
`__main__` (lines 100-102). -/
def main_single_trace (args : Args) : List Event :=
  read_and_dump_root args.fname args.half_life (spectrum_name_of args.fname)
    args.save_path

/-- The module entry point `__main__` (lines 99-109): process the positional pair, then, when
`-r` was given, call `read_tab_delim_file` and run the batch loop.  Returns
the service calls made and the first propagated error, if any (external
service calls themselves are taken to succeed here; per-call failure is
modelled by `run_read_and_dump_root`). -/
def pyMain (args : Args) (fs : String → Option String) :
    List Event × Option String :=
  match args.read_text_file with
  | none => (main_single_trace args, none)
  | some r =>
    match read_tab_delim_file r (main_globals args) fs with
    | Except.error e => (main_single_trace args, some e)
    | Except.ok (path_list, half_life_list) =>
      (main_single_trace args ++
        (batch_loop path_list half_life_list (main_globals args) args.save_path).1,
       (batch_loop path_list half_life_list (main_globals args) args.save_path).2)

/-- When every service call succeeds, the run performs exactly the listed
calls, in order, and no error is produced. -/
theorem run_calls_success (svc : Event → Option String) (l : List Event)
    (h : ∀ e ∈ l, svc e = none) : run_calls svc l = (l, none) := by
  induction l with
  | nil => rfl
  | cons e es ih =>
    have he : svc e = none := h e (List.mem_cons_self e es)
    simp [run_calls, he, ih (fun x hx => h x (List.mem_cons_of_mem e hx))]

/-- The first failing call aborts the run: the calls before it run, the
failing call is attempted, the calls after it never run, and its error is
returned unchanged. -/
theorem run_calls_first_error (svc : Event → Option String)
    (pre : List Event) (e : Event) (post : List Event) (err : String)
    (hpre : ∀ x ∈ pre, svc x = none) (he : svc e = some err) :
    run_calls svc (pre ++ e :: post) = (pre ++ [e], some err) := by
  induction pre with
  | nil => simp [run_calls, he]
  | cons x xs ih =>
    have hx : svc x = none := hpre x (List.mem_cons_self x xs)
    simp [run_calls, hx, ih (fun y hy => hpre y (List.mem_cons_of_mem x hy))]

/-- C1: for every valid (file, half-life, name, directory) tuple — validity
meaning every delegated service call succeeds — a single-source invocation
of `read_and_dump_root` performs exactly two storage-service writes, to
`<dir>/<name>_mc.hdf5` and `<dir>/<name>_reco.hdf5`, and no others, and
finishes without error. -/
theorem c1_exactly_two_dumps (svc : Event → Option String)
    (fname half_life spectrum_name save_path : String)
    (hsvc : ∀ e, svc e = none) :
    (run_read_and_dump_root svc fname half_life spectrum_name save_path).1.filter
        isDump =
      [Event.dump (save_path ++ "/" ++ spectrum_name ++ "_mc.hdf5")
         (fill_mc_spectrum fname half_life (spectrum_name ++ "_mc")),
       Event.dump (save_path ++ "/" ++ spectrum_name ++ "_reco.hdf5")
         (fill_reco_spectrum fname half_life (spectrum_name ++ "_reco"))] ∧
    (run_read_and_dump_root svc fname half_life spectrum_name save_path).2 =
      none := by
  have h := run_calls_success svc
    (read_and_dump_root fname half_life spectrum_name save_path)
    (fun e _ => hsvc e)
  unfold run_read_and_dump_root
  rw [h]
  constructor
  · simp [read_and_dump_root, plot_spectrum, List.filter, isDump]
  · rfl

theorem c1_witness :
    (run_read_and_dump_root (fun _ => none) "in.root" "100.0" "example.root" ".").1.filter
        isDump =
      [Event.dump ("." ++ "/" ++ "example.root" ++ "_mc.hdf5")
         (fill_mc_spectrum "in.root" "100.0" ("example.root" ++ "_mc")),
       Event.dump ("." ++ "/" ++ "example.root" ++ "_reco.hdf5")
         (fill_reco_spectrum "in.root" "100.0" ("example.root" ++ "_reco"))] ∧
    (run_read_and_dump_root (fun _ => none) "in.root" "100.0" "example.root" ".").2 =
      none :=
  c1_exactly_two_dumps (fun _ => none) "in.root" "100.0" "example.root" "."
    (fun _ => rfl)

/-- C6: in every single-source invocation the fill service is called exactly
twice, both times on the same input file and half-life: the mc variant with
spectrum name `<name>_mc` and the reco variant with `<name>_reco`. -/
theorem c6_two_fill_calls (fname half_life spectrum_name save_path : String) :
    (read_and_dump_root fname half_life spectrum_name save_path).filter isFill =
      [Event.fill (fill_mc_spectrum fname half_life (spectrum_name ++ "_mc")),
       Event.fill (fill_reco_spectrum fname half_life (spectrum_name ++ "_reco"))] := by
  simp [read_and_dump_root, plot_spectrum, List.filter, isFill]

/-- C7: in every single-source invocation each of the two spectra is passed
to the plotting service exactly three times, once per dimension index 0, 1
and 2, giving six plotting calls in total. -/
theorem c7_six_plot_calls (fname half_life spectrum_name save_path : String) :
    (read_and_dump_root fname half_life spectrum_name save_path).filter isPlot =
      [Event.plot_projection
         (fill_mc_spectrum fname half_life (spectrum_name ++ "_mc")) 0,
       Event.plot_projection
         (fill_mc_spectrum fname half_life (spectrum_name ++ "_mc")) 1,
       Event.plot_projection
         (fill_mc_spectrum fname half_life (spectrum_name ++ "_mc")) 2,
       Event.plot_projection
         (fill_reco_spectrum fname half_life (spectrum_name ++ "_reco")) 0,
       Event.plot_projection
         (fill_reco_spectrum fname half_life (spectrum_name ++ "_reco")) 1,
       Event.plot_projection
         (fill_reco_spectrum fname half_life (spectrum_name ++ "_reco")) 2] := by
  simp [read_and_dump_root, plot_spectrum, List.filter, isPlot]

/-- The call sequence of one `read_and_dump_root` invocation has exactly
ten events. -/
theorem read_and_dump_root_length (fname half_life spectrum_name save_path : String) :
    (read_and_dump_root fname half_life spectrum_name save_path).length = 10 := rfl

/-- Positions 0 and 1 of the call sequence, and only they, are fill calls. -/
theorem isFill_read_and_dump_root (fname half_life spectrum_name save_path : String)
    (i : Fin 10) :
    isFill ((read_and_dump_root fname half_life spectrum_name save_path).get
        (Fin.cast rfl i)) = decide (i.val < 2) := by
  fin_cases i <;> rfl

/-- Positions 2 through 7 of the call sequence, and only they, are plotting
calls. -/
theorem isPlot_read_and_dump_root (fname half_life spectrum_name save_path : String)
    (i : Fin 10) :
    isPlot ((read_and_dump_root fname half_life spectrum_name save_path).get
        (Fin.cast rfl i)) = decide (2 ≤ i.val ∧ i.val < 8) := by
  fin_cases i <;> rfl

/-- Positions 8 and 9 of the call sequence, and only they, are storage
writes. -/
theorem isDump_read_and_dump_root (fname half_life spectrum_name save_path : String)
    (i : Fin 10) :
    isDump ((read_and_dump_root fname half_life spectrum_name save_path).get
        (Fin.cast rfl i)) = decide (8 ≤ i.val) := by
  fin_cases i <;> rfl

/-- Position 8, and only it, writes the mc spectrum. -/
theorem isDumpOf_mc_read_and_dump_root (fname half_life spectrum_name save_path : String)
    (i : Fin 10) :
    isDumpOf FillKind.mc ((read_and_dump_root fname half_life spectrum_name save_path).get
        (Fin.cast rfl i)) = decide (i.val = 8) := by
  fin_cases i <;> rfl

/-- Position 9, and only it, writes the reco spectrum. -/
theorem isDumpOf_reco_read_and_dump_root (fname half_life spectrum_name save_path : String)
    (i : Fin 10) :
    isDumpOf FillKind.reco ((read_and_dump_root fname half_life spectrum_name save_path).get
        (Fin.cast rfl i)) = decide (i.val = 9) := by
  fin_cases i <;> rfl

/-- C10: within one single-source invocation the operations occur in a fixed
order: every fill call precedes every plotting call, every plotting call
precedes every storage write, and the mc write precedes the reco write — in
particular no output file is written before both spectra are filled and
plotted. -/
theorem c10_fixed_operation_order (fname half_life spectrum_name save_path : String)
    (i j : Fin 10) :
    (isFill ((read_and_dump_root fname half_life spectrum_name save_path).get
        (Fin.cast rfl i)) = true →
      isPlot ((read_and_dump_root fname half_life spectrum_name save_path).get
        (Fin.cast rfl j)) = true → i.val < j.val) ∧
    (isPlot ((read_and_dump_root fname half_life spectrum_name save_path).get
        (Fin.cast rfl i)) = true →
      isDump ((read_and_dump_root fname half_life spectrum_name save_path).get
        (Fin.cast rfl j)) = true → i.val < j.val) ∧
    (isDumpOf FillKind.mc ((read_and_dump_root fname half_life spectrum_name save_path).get
        (Fin.cast rfl i)) = true →
      isDumpOf FillKind.reco ((read_and_dump_root fname half_life spectrum_name save_path).get
        (Fin.cast rfl j)) = true → i.val < j.val) := by
  refine ⟨?_, ?_, ?_⟩
  · intro h1 h2
    rw [isFill_read_and_dump_root] at h1
    rw [isPlot_read_and_dump_root] at h2
    have := of_decide_eq_true h1
    have := of_decide_eq_true h2
    omega
  · intro h1 h2
    rw [isPlot_read_and_dump_root] at h1
    rw [isDump_read_and_dump_root] at h2
    have := of_decide_eq_true h1
    have := of_decide_eq_true h2
    omega
  · intro h1 h2
    rw [isDumpOf_mc_read_and_dump_root] at h1
    rw [isDumpOf_reco_read_and_dump_root] at h2
    have := of_decide_eq_true h1
    have := of_decide_eq_true h2
    omega

theorem c10_witness :
    ((0 : Fin 10)).val < ((2 : Fin 10)).val ∧
    ((2 : Fin 10)).val < ((8 : Fin 10)).val ∧
    ((8 : Fin 10)).val < ((9 : Fin 10)).val :=
  ⟨(c10_fixed_operation_order "a" "b" "c" "d" 0 2).1 (by decide) (by decide),
   (c10_fixed_operation_order "a" "b" "c" "d" 2 8).2.1 (by decide) (by decide),
   (c10_fixed_operation_order "a" "b" "c" "d" 8 9).2.2 (by decide) (by decide)⟩

/-- Computing `rfindIdx` over an append: the right part wins when it contains the
character, otherwise the search falls back to the left part. -/
theorem rfindIdx_append (l1 l2 : List Char) (c : Char) :
    rfindIdx (l1 ++ l2) c =
      match rfindIdx l2 c with
      | some i => some (l1.length + i)
      | none => rfindIdx l1 c := by
  induction l1 with
  | nil => cases h : rfindIdx l2 c <;> simp [h, rfindIdx]
  | cons x xs ih =>
    simp only [List.cons_append, rfindIdx, List.append_eq]
    rw [ih]
    cases h : rfindIdx l2 c with
    | none => simp [rfindIdx]
    | some i =>
      simp only [List.length_cons, Option.some.injEq]
      omega

/-- A character absent from the list is not found. -/
theorem rfindIdx_eq_none (l : List Char) (c : Char) (h : c ∉ l) :
    rfindIdx l c = none := by
  induction l with
  | nil => rfl
  | cons x xs ih =>
    have hx : ¬x = c := fun hh => h (hh ▸ List.mem_cons_self x xs)
    have hxs : c ∉ xs := fun hh => h (List.mem_cons_of_mem x hh)
    simp [rfindIdx, ih hxs, hx]

/-- The general name-derivation rule: when the path decomposes as
`a ++ "/" ++ b` with `b` nonempty and slash-free (the last `/` of the path
occurring before its final character), the derived name is `b`. -/
theorem spectrum_name_of_slash (a b : List Char) (hb1 : '/' ∉ b) (hb2 : b ≠ []) :
    spectrum_name_of (String.mk (a ++ '/' :: b)) = String.mk b := by
  rcases List.eq_nil_or_concat b with rfl | ⟨bs, y, hby⟩
  · exact absurd rfl hb2
  rw [List.concat_eq_append] at hby
  subst hby
  have hbs : '/' ∉ bs := fun hm => hb1 (List.mem_append_left [y] hm)
  have htl : (String.mk (a ++ '/' :: (bs ++ [y]))).toList = a ++ '/' :: (bs ++ [y]) := rfl
  have hassoc : a ++ '/' :: (bs ++ [y]) = (a ++ '/' :: bs) ++ [y] := by
    simp
  have hlen : (a ++ '/' :: (bs ++ [y])).length - 1 = (a ++ '/' :: bs).length := by
    simp
  have htake : (a ++ '/' :: (bs ++ [y])).take ((a ++ '/' :: (bs ++ [y])).length - 1) =
      a ++ '/' :: bs := by
    rw [hlen, hassoc, List.take_left]
  have hfindr : rfindIdx ('/' :: bs) '/' = some 0 := by
    simp [rfindIdx, rfindIdx_eq_none bs '/' hbs]
  have hfind : rfindIdx (a ++ '/' :: bs) '/' = some (a.length + 0) := by
    rw [rfindIdx_append, hfindr]
  have hstart : spectrum_name_start (a ++ '/' :: (bs ++ [y])) = a.length + 1 := by
    unfold spectrum_name_start
    rw [htake, hfind]
  have hdrop : (a ++ '/' :: (bs ++ [y])).drop (a.length + 1) = bs ++ [y] := by
    have hsplit : a ++ '/' :: (bs ++ [y]) = (a ++ ['/']) ++ (bs ++ [y]) := by simp
    rw [hsplit]
    have hl : (a ++ ['/']).length = a.length + 1 := by simp
    rw [← hl, List.drop_left]
  unfold spectrum_name_of
  rw [htl, hstart, hdrop]

/-- C2: the derived spectrum base name is the substring following the last
`/` that occurs before the final character of the path; in particular
`"/data/run1/file.root"` yields `"file.root"`, and `"/data/run1/"` yields
the degenerate name `"run1/"`, which still contains a `/` (so it is not a
clean basename). -/
theorem c2_name_derivation (a b : List Char) (hb1 : '/' ∉ b) (hb2 : b ≠ []) :
    spectrum_name_of (String.mk (a ++ '/' :: b)) = String.mk b ∧
    spectrum_name_of "/data/run1/file.root" = "file.root" ∧
    spectrum_name_of "/data/run1/" = "run1/" ∧
    '/' ∈ (spectrum_name_of "/data/run1/").toList :=
  ⟨spectrum_name_of_slash a b hb1 hb2, by decide, by decide, by decide⟩

theorem c2_witness :
    spectrum_name_of (String.mk (['/', 'x'] ++ '/' :: ['y'])) = String.mk ['y'] ∧
    spectrum_name_of "/data/run1/file.root" = "file.root" ∧
    spectrum_name_of "/data/run1/" = "run1/" ∧
    '/' ∈ (spectrum_name_of "/data/run1/").toList :=
  c2_name_derivation ['/', 'x'] ['y'] (by decide) (by decide)

/-- C9: a path containing no `/` at all is its own derived name (Python
`rfind` returns `-1`, so the slice starts at index 0). -/
theorem c9_no_slash_name (fname : String) (h : '/' ∉ fname.toList) :
    spectrum_name_of fname = fname := by
  have hnone : rfindIdx (fname.toList.take (fname.toList.length - 1)) '/' = none :=
    rfindIdx_eq_none _ '/' (fun hm => h (List.take_subset _ _ hm))
  have hstart : spectrum_name_start fname.toList = 0 := by
    unfold spectrum_name_start
    rw [hnone]
  unfold spectrum_name_of
  rw [hstart, List.drop_zero]
  cases fname with
  | mk data => rfl

theorem c9_witness : spectrum_name_of "file.root" = "file.root" :=
  c9_no_slash_name "file.root" (by decide)

/-- A service behaviour under which every storage write fails. -/
def svcDumpFails : Event → Option String :=
  fun e => if isDump e then some "IOError" else none

/-- C8: single-source processing returns no value on success (the run ends
with no error and nothing but its side effects), and any error raised by a
fill, plotting or storage call propagates out unchanged: the calls before
the first failing call run, the failing call is attempted, nothing after it
runs, and the error is neither caught, translated nor retried. -/
theorem c8_errors_propagate_unhandled (svc : Event → Option String)
    (fname half_life spectrum_name save_path : String) :
    ((∀ e, svc e = none) →
      run_read_and_dump_root svc fname half_life spectrum_name save_path =
        (read_and_dump_root fname half_life spectrum_name save_path, none)) ∧
    (∀ (pre : List Event) (e : Event) (post : List Event) (err : String),
      read_and_dump_root fname half_life spectrum_name save_path =
        pre ++ e :: post →
      (∀ x ∈ pre, svc x = none) → svc e = some err →
      run_read_and_dump_root svc fname half_life spectrum_name save_path =
        (pre ++ [e], some err)) := by
  constructor
  · intro hs
    unfold run_read_and_dump_root
    exact run_calls_success svc _ (fun e _ => hs e)
  · intro pre e post err hsplit hpre he
    unfold run_read_and_dump_root
    rw [hsplit]
    exact run_calls_first_error svc pre e post err hpre he

theorem c8_witness :
    run_read_and_dump_root (fun _ => none) "a" "b" "c" "d" =
      (read_and_dump_root "a" "b" "c" "d", none) ∧
    run_read_and_dump_root svcDumpFails "a" "b" "c" "d" =
      ((read_and_dump_root "a" "b" "c" "d").take 8 ++
        [Event.dump ("d" ++ "/" ++ "c" ++ "_mc.hdf5")
          (fill_mc_spectrum "a" "b" ("c" ++ "_mc"))],
       some "IOError") :=
  ⟨(c8_errors_propagate_unhandled (fun _ => none) "a" "b" "c" "d").1 (fun _ => rfl),
   (c8_errors_propagate_unhandled svcDumpFails "a" "b" "c" "d").2
     ((read_and_dump_root "a" "b" "c" "d").take 8)
     (Event.dump ("d" ++ "/" ++ "c" ++ "_mc.hdf5")
       (fill_mc_spectrum "a" "b" ("c" ++ "_mc")))
     [Event.dump ("d" ++ "/" ++ "c" ++ "_reco.hdf5")
       (fill_reco_spectrum "a" "b" ("c" ++ "_reco"))]
     "IOError" (by decide) (by decide) (by decide)⟩

/-- C3: calling the manifest reader raises a `NameError` whatever its
argument, because its body opens the undefined global `path_to_file`
instead of the `fname` parameter its docstring describes — contradicting
the documented contract.  The parsing the body would perform (lines 76-79)
does map the two-line tab-delimited content to the two claimed per-column
string lists. -/
theorem c3_reader_name_error (fname : String) (globals : List (String × String))
    (fs : String → Option String)
    (hg : globals.lookup "path_to_file" = none) :
    read_tab_delim_file fname globals fs = Except.error nameErrorPathToFile ∧
    parse_tab_delim_lines (file_lines "/a/x.root\t100.0\n/b/y.root\t200.0\n") =
      Except.ok (["/a/x.root", "/b/y.root"], ["100.0", "200.0"]) := by
  constructor
  · unfold read_tab_delim_file
    rw [hg]
  · rfl

theorem c3_witness :
    read_tab_delim_file "list.txt" [("fname", "/data/run1/file.root")]
        (fun _ => none) =
      Except.error nameErrorPathToFile ∧
    parse_tab_delim_lines (file_lines "/a/x.root\t100.0\n/b/y.root\t200.0\n") =
      Except.ok (["/a/x.root", "/b/y.root"], ["100.0", "200.0"]) :=
  c3_reader_name_error "list.txt" [("fname", "/data/run1/file.root")]
    (fun _ => none) (by decide)

/-- Every fill event a batch-loop run emits carries, as its input file, the
value of the global `path` — not the file path of the manifest entry being
processed. -/
theorem batch_loop_go_fill_source (half_life_list : List String)
    (g : List (String × String)) (save_path v : String)
    (hv : g.lookup "path" = some v) :
    ∀ (paths : List String) (idx : Nat) (s : Spectrum),
      Event.fill s ∈ (batch_loop_go half_life_list g save_path idx paths).1 →
      s.source = v := by
  intro paths
  induction paths with
  | nil =>
    intro idx s hs
    simp [batch_loop_go] at hs
  | cons f rest ih =>
    intro idx s hs
    simp only [batch_loop_go, hv] at hs
    cases hhl : half_life_list.get? idx with
    | none =>
      rw [hhl] at hs
      simp at hs
    | some hl =>
      rw [hhl] at hs
      simp only [List.mem_append] at hs
      rcases hs with h1 | h2
      · simp [read_and_dump_root, plot_spectrum, fill_mc_spectrum,
          fill_reco_spectrum] at h1
        rcases h1 with h1 | h1 <;> (subst h1; rfl)
      · exact ih (idx + 1) s h2

/-- C4: in batch mode the loop body never receives the file path of the
current manifest entry.  With the module globals as they stand (no global `path`), the
very first iteration raises a `NameError`, aborting the batch with no
service call made; and were a global `path` bound to some value `v`, every
fill call of the whole batch would read the file `v`, whatever the manifest
entries say.  Either way the code contradicts the documented per-entry
contract. -/
theorem c4_batch_loop_wrong_variable (path_list half_life_list : List String)
    (g : List (String × String)) (save_path : String)
    (p0 : String) (rest : List String)
    (hlist : path_list = p0 :: rest) (hg : g.lookup "path" = none) :
    batch_loop path_list half_life_list g save_path =
      ([], some nameErrorPath) ∧
    (∀ (v : String) (g2 : List (String × String)), g2.lookup "path" = some v →
      ∀ s : Spectrum,
        Event.fill s ∈ (batch_loop path_list half_life_list g2 save_path).1 →
        s.source = v) := by
  constructor
  · subst hlist
    simp [batch_loop, batch_loop_go, hg]
  · intro v g2 hv s hs
    exact batch_loop_go_fill_source half_life_list g2 save_path v hv path_list 0 s hs

theorem c4_witness :
    batch_loop ["/a/x.root"] ["100.0"] [] "." = ([], some nameErrorPath) ∧
    (fill_mc_spectrum "/Z" "100.0" ("x.root" ++ "_mc")).source = "/Z" :=
  ⟨(c4_batch_loop_wrong_variable ["/a/x.root"] ["100.0"] [] "." "/a/x.root" []
      rfl (by decide)).1,
   (c4_batch_loop_wrong_variable ["/a/x.root"] ["100.0"] [] "." "/a/x.root" []
      rfl (by decide)).2 "/Z" [("path", "/Z")] (by decide)
     (fill_mc_spectrum "/Z" "100.0" ("x.root" ++ "_mc")) (by decide)⟩

/-- C5: without `-r` only the positional pair is processed.  With `-r` the
positional pair is still processed first, but then `read_tab_delim_file`
raises a `NameError` (undefined global `path_to_file`), so not a single
manifest entry is processed — contradicting the documented behaviour that
every manifest entry is processed additionally. -/
theorem c5_single_pair_first (args : Args) (fs : String → Option String) :
    (args.read_text_file = none →
      pyMain args fs =
        (read_and_dump_root args.fname args.half_life
           (spectrum_name_of args.fname) args.save_path, none)) ∧
    (∀ r, args.read_text_file = some r →
      pyMain args fs =
        (read_and_dump_root args.fname args.half_life
           (spectrum_name_of args.fname) args.save_path,
         some nameErrorPathToFile)) := by
  constructor
  · intro h
    simp only [pyMain, h]
    rfl
  · intro r h
    have hr : read_tab_delim_file r (main_globals args) fs =
        Except.error nameErrorPathToFile := rfl
    simp only [pyMain, h, hr]
    rfl

/-- Concrete arguments: no manifest option. -/
def argsNoManifest : Args :=
  ⟨none, "./", "/data/run1/file.root", "100.0"⟩

/-- Concrete arguments: with a manifest option. -/
def argsWithManifest : Args :=
  ⟨some "list.txt", "./", "/data/run1/file.root", "100.0"⟩

theorem c5_witness :
    pyMain argsNoManifest (fun _ => none) =
      (read_and_dump_root "/data/run1/file.root" "100.0"
        (spectrum_name_of "/data/run1/file.root") "./", none) ∧
    pyMain argsWithManifest (fun _ => none) =
      (read_and_dump_root "/data/run1/file.root" "100.0"
        (spectrum_name_of "/data/run1/file.root") "./",
       some nameErrorPathToFile) :=
  ⟨(c5_single_pair_first argsNoManifest (fun _ => none)).1 rfl,
   (c5_single_pair_first argsWithManifest (fun _ => none)).2 "list.txt" rfl⟩

end Echidna
